import Mathlib

/-!
Shallow embedding of `run.py`, a build-and-run harness for the `frenzy`
benchmark binary.  The script derives a cargo build profile and an
execution wrapper from the `--samply` flag, builds with
`cargo build --profile=<p> --quiet` (cwd = project root), then runs the
built binary under either `time` or `samply record`, forwarding the
measurements-file path as the sole positional argument.  Both child
processes are started with `subprocess.check_call`, which raises
`CalledProcessError` on a non-zero exit; the script installs no handler,
so such an exception escapes and the interpreter terminates with status 1.
-/

namespace Frenzy

/-- A spawned child process: its argument vector and the optional working
directory passed to `subprocess.check_call` (`none` means the parent's cwd
is inherited). -/
structure Spawn where
  argv : List String
  cwd : Option String
deriving Repr, DecidableEq

/-- The command-line arguments accepted by `run.py`: the `--samply` boolean
flag and the optional `--measurements-file` path (`none` when omitted). -/
structure Args where
  samply : Bool
  measurementsFile : Option String
deriving Repr, DecidableEq

/-- The wrapper command selected by the `args.samply` branch:
`["samply", "record"]` when the flag is set, `["time"]` otherwise. -/
def exeOf (samply : Bool) : List String :=
  if samply then ["samply", "record"] else ["time"]

/-- The build profile string selected by the `args.samply` branch:
`"profiling"` when the flag is set, `"release"` otherwise. -/
def profileOf (samply : Bool) : String :=
  if samply then "profiling" else "release"

/-- The path `proj_dir / "target" / profile / "frenzy"` as rendered into the
child argument vector. -/
def binPath (projDir profile : String) : String :=
  projDir ++ "/target/" ++ profile ++ "/frenzy"

/-- Default value of `--measurements-file`:
`proj_dir / "1brc" / "measurements_1b.txt"`. -/
def defaultMeasurementsFile (projDir : String) : String :=
  projDir ++ "/1brc/measurements_1b.txt"

/-- The measurements-file path actually forwarded: the supplied one, or the
default under the project root when the option was omitted. -/
def measurementsFileOf (projDir : String) (args : Args) : String :=
  args.measurementsFile.getD (defaultMeasurementsFile projDir)

/-- Argument vector of the first `check_call`:
`["cargo", "build", "--profile=" ++ profile, "--quiet"]`. -/
def buildCmd (samply : Bool) : List String :=
  ["cargo", "build", "--profile=" ++ profileOf samply, "--quiet"]

/-- Argument vector of the second `check_call`:
`[*exe, proj_dir / "target" / profile / "frenzy", args.measurements_file]`. -/
def runCmd (projDir : String) (args : Args) : List String :=
  exeOf args.samply ++
    [binPath projDir (profileOf args.samply), measurementsFileOf projDir args]

/-- Semantics of `subprocess.check_call`, parameterised by the exit code of
the child it spawns: it returns normally on exit code 0 and raises
`CalledProcessError` carrying the child's exit code otherwise. -/
def check_call (exitCode : Int) : Except Int Unit :=
  if exitCode = 0 then .ok () else .error exitCode

/-- Observable behaviour of one invocation of `run.py`: the child processes
spawned, in order, and the final outcome (`.ok ()` on normal completion,
`.error c` when a `CalledProcessError` with child exit code `c` escapes). -/
structure HarnessRun where
  spawned : List Spawn
  outcome : Except Int Unit
deriving Repr

/-- The harness, as a function of the parsed arguments and of the exit codes
the two child processes would return: first `cargo build` with
`cwd=proj_dir`; if that `check_call` raises, nothing else runs; otherwise
the run `check_call` (no explicit cwd) follows. -/
def harnessRun (projDir : String) (args : Args) (buildExit runExit : Int) :
    HarnessRun :=
  match check_call buildExit with
  | .error c => { spawned := [⟨buildCmd args.samply, some projDir⟩], outcome := .error c }
  | .ok () =>
    match check_call runExit with
    | .error c =>
      { spawned := [⟨buildCmd args.samply, some projDir⟩, ⟨runCmd projDir args, none⟩],
        outcome := .error c }
    | .ok () =>
      { spawned := [⟨buildCmd args.samply, some projDir⟩, ⟨runCmd projDir args, none⟩],
        outcome := .ok () }

/-- Exit status of the Python interpreter for the script: 0 when it runs to
completion, 1 when an exception (here `CalledProcessError`) escapes
uncaught — the interpreter prints a traceback and exits with status 1
regardless of the child's exit code. -/
def interpreterExit : Except Int Unit → Int
  | .ok () => 0
  | .error _ => 1

/-- Exit code of the whole harness process. -/
def harnessExit (projDir : String) (args : Args) (buildExit runExit : Int) :
    Int :=
  interpreterExit (harnessRun projDir args buildExit runExit).outcome

/-- The spec's ExecutionMode: `Timed` for the wall-clock timer wrapper,
`Profiled` for the sampling profiler wrapper. -/
inductive ExecutionMode
  | Timed
  | Profiled
deriving Repr, DecidableEq

/-- ExecutionMode read off from the wrapper command the code selects: the
profiler invocation `samply record` means `Profiled`, anything else (here
`time`) means `Timed`. -/
def execModeOf (samply : Bool) : ExecutionMode :=
  if exeOf samply = ["samply", "record"] then .Profiled else .Timed

/-- A `pathlib.Path`, abstracted to an absolute-flag plus components. -/
structure PyPath where
  absolute : Bool
  components : List String
deriving Repr, DecidableEq

/-- Semantics of `Path.parent`: drop the final component. -/
def PyPath.parent (p : PyPath) : PyPath :=
  ⟨p.absolute, p.components.dropLast⟩

/-- Semantics of `Path.resolve()` with respect to the process's current
working directory: an absolute path is unchanged; a relative one is
anchored at the cwd. -/
def PyPath.resolve (p : PyPath) (cwd : List String) : PyPath :=
  if p.absolute then p else ⟨true, cwd ++ p.components⟩

/-- The script's `proj_dir = Path(__file__).parent.resolve()`, as a function
of the script's own file path and the process's cwd.  The interpreter
supplies `__file__` for the main script as an absolute path. -/
def projDirOf (scriptFile : PyPath) (cwd : List String) : PyPath :=
  (scriptFile.parent).resolve cwd

/-- Spawn record of the build step for a given project root and flag. -/
def buildSpawn (projDir : String) (samply : Bool) : Spawn :=
  ⟨buildCmd samply, some projDir⟩

/-- Spawn record of the run step for a given project root and arguments. -/
def runSpawn (projDir : String) (args : Args) : Spawn :=
  ⟨runCmd projDir args, none⟩

end Frenzy

namespace Frenzy

/-- C1 (counterexample): the claim says the harness's exit code equals the
exit code of the first failing child.  When the build child exits with
code 2, the `CalledProcessError` escapes uncaught and the interpreter
exits with status 1, not 2. -/
theorem c1_exit_code_counterexample :
    harnessExit "/proj" ⟨false, none⟩ 2 0 = 1 ∧ (1 : Int) ≠ 2 := by
  exact ⟨rfl, by decide⟩

/-- C1 (amended): the harness exits 0 when both the build child and the run
child exit 0; when either fails the uncaught `CalledProcessError` makes
the interpreter exit with status 1, which equals the failing child's exit
code only when that code happens to be 1.  The escaping exception does
carry the first failing child's exit code. -/
theorem c1_exit_code_amended (projDir : String) (args : Args)
    (buildExit runExit : Int) :
    harnessExit projDir args buildExit runExit =
      (if buildExit = 0 ∧ runExit = 0 then 0 else 1) ∧
    (harnessRun projDir args buildExit runExit).outcome =
      (if buildExit ≠ 0 then .error buildExit
       else if runExit ≠ 0 then .error runExit else .ok ()) := by
  by_cases hb : buildExit = 0 <;> by_cases hr : runExit = 0 <;>
    simp [harnessExit, harnessRun, check_call, interpreterExit, hb, hr]

/-- C2: if the build child exits non-zero, the run step is never invoked:
the trace of spawned children is exactly the single build invocation, so
no second child follows the failing build and there is no retry. -/
theorem c2_no_run_after_failed_build (projDir : String) (args : Args)
    (buildExit runExit : Int) (h : buildExit ≠ 0) :
    (harnessRun projDir args buildExit runExit).spawned =
      [buildSpawn projDir args.samply] := by
  simp [harnessRun, check_call, h, buildSpawn]

/-- C2 (witness): with a build exit code of 2, only the build command is
spawned. -/
theorem c2_no_run_after_failed_build_witness :
    (harnessRun "/p" ⟨false, none⟩ 2 0).spawned =
      [⟨["cargo", "build", "--profile=release", "--quiet"], some "/p"⟩] :=
  c2_no_run_after_failed_build "/p" ⟨false, none⟩ 2 0 (by decide)

/-- C3: the (BuildProfile, ExecutionMode) pair derived from the flag is
deterministic and consistent: flag set gives ("profiling", Profiled), flag
clear gives ("release", Timed), and no other combination is reachable. -/
theorem c3_profile_mode_pair :
    (profileOf true, execModeOf true) = ("profiling", ExecutionMode.Profiled) ∧
    (profileOf false, execModeOf false) = ("release", ExecutionMode.Timed) ∧
    ∀ b : Bool,
      (profileOf b, execModeOf b) = ("profiling", ExecutionMode.Profiled) ∨
      (profileOf b, execModeOf b) = ("release", ExecutionMode.Timed) := by
  refine ⟨rfl, rfl, ?_⟩
  intro b
  cases b
  · right; rfl
  · left; rfl

/-- C4: for every project root `P` and the profile `B` derived from the
flag, the binary path placed in the run command is exactly
`P/target/B/frenzy`, and two invocations with the same flag resolve the
same binary path. -/
theorem c4_binary_path (P : String) (a a' : Args)
    (h : a.samply = a'.samply) :
    runCmd P a =
      exeOf a.samply ++
        [P ++ "/target/" ++ profileOf a.samply ++ "/frenzy",
         measurementsFileOf P a] ∧
    binPath P (profileOf a.samply) = binPath P (profileOf a'.samply) := by
  constructor
  · rfl
  · rw [h]

/-- C4 (witness): with the flag clear, the resolved binary path is
`/p/target/release/frenzy` in the run command. -/
theorem c4_binary_path_witness :
    runCmd "/p" ⟨false, some "/d.txt"⟩ =
      ["time", "/p/target/release/frenzy", "/d.txt"] ∧
    binPath "/p" (profileOf false) = binPath "/p" (profileOf false) :=
  c4_binary_path "/p" ⟨false, some "/d.txt"⟩ ⟨false, none⟩ rfl

/-- C5: the final positional argument of the run command is exactly the
supplied measurements-file path, or `<project root>/1brc/measurements_1b.txt`
when the option is omitted. -/
theorem c5_measurements_file_forwarded (P : String) (a : Args) :
    (runCmd P a).getLast? =
      some (a.measurementsFile.getD (P ++ "/1brc/measurements_1b.txt")) := by
  cases hs : a.samply <;>
    simp [runCmd, exeOf, measurementsFileOf, defaultMeasurementsFile, hs]

/-- C6: the first spawned child is always
`cargo build --profile=<profile> --quiet` with working directory equal to
the project root, for every flag value and every pair of child exit
codes. -/
theorem c6_build_invocation (P : String) (a : Args) (b r : Int) :
    (harnessRun P a b r).spawned.head? =
      some ⟨["cargo", "build", "--profile=" ++ profileOf a.samply, "--quiet"],
            some P⟩ := by
  by_cases hb : b = 0 <;> by_cases hr : r = 0 <;>
    simp [harnessRun, check_call, hb, hr, buildCmd]

/-- C7: the run command's shape depends only on the ExecutionMode: the
Timed wrapper is `time`, the Profiled wrapper is `samply record`, and in
both the binary path directly precedes the forwarded argument. -/
theorem c7_run_command_shape (P : String) (a : Args) :
    runCmd P a =
      (match execModeOf a.samply with
        | .Timed => ["time"]
        | .Profiled => ["samply", "record"]) ++
        [binPath P (profileOf a.samply), measurementsFileOf P a] := by
  cases hs : a.samply <;> simp [runCmd, exeOf, execModeOf, hs]

/-- C8: since the interpreter supplies the main script's `__file__` as an
absolute path, `proj_dir = Path(__file__).parent.resolve()` is the same
absolute path whatever the process's current working directory is. -/
theorem c8_proj_dir_cwd_independent (f : PyPath) (h : f.absolute = true)
    (cwd cwd' : List String) :
    projDirOf f cwd = projDirOf f cwd' ∧ (projDirOf f cwd).absolute = true := by
  constructor
  · simp [projDirOf, PyPath.parent, PyPath.resolve, h]
  · simp [projDirOf, PyPath.parent, PyPath.resolve, h]

/-- C8 (witness): for the concrete absolute script path
`/home/u/frenzy/run.py`, the resolved project root does not depend on the
cwd and is absolute. -/
theorem c8_proj_dir_cwd_independent_witness :
    projDirOf ⟨true, ["home", "u", "frenzy", "run.py"]⟩ ["tmp"] =
      projDirOf ⟨true, ["home", "u", "frenzy", "run.py"]⟩ ["var", "log"] ∧
    (projDirOf ⟨true, ["home", "u", "frenzy", "run.py"]⟩ ["tmp"]).absolute =
      true :=
  c8_proj_dir_cwd_independent ⟨true, ["home", "u", "frenzy", "run.py"]⟩ rfl
    ["tmp"] ["var", "log"]

/-- C9: one and the same profile string names the build step's
`--profile=` configuration and the profile path component locating the
binary: whenever both children are spawned, the spawn trace uses a single
`prof` in both places. -/
theorem c9_profile_consistency (P : String) (a : Args) (r : Int) :
    ∃ prof,
      (harnessRun P a 0 r).spawned =
        [⟨["cargo", "build", "--profile=" ++ prof, "--quiet"], some P⟩,
         ⟨exeOf a.samply ++
            [P ++ "/target/" ++ prof ++ "/frenzy", measurementsFileOf P a],
          none⟩] := by
  refine ⟨profileOf a.samply, ?_⟩
  by_cases hr : r = 0 <;>
    simp [harnessRun, check_call, hr, buildCmd, runCmd, binPath]

/-- C10: the measurements-file argument is forwarded unconditionally and
orthogonally to the ExecutionMode: after the wrapper and the binary path,
the run command holds exactly one positional argument, the supplied or
default measurements-file path, for both flag values. -/
theorem c10_single_positional_argument (P : String) (a : Args) :
    (runCmd P a).drop ((exeOf a.samply).length + 1) =
      [measurementsFileOf P a] ∧
    measurementsFileOf P a =
      a.measurementsFile.getD (defaultMeasurementsFile P) := by
  constructor
  · cases hs : a.samply <;> simp [runCmd, exeOf, hs]
  · rfl

end Frenzy
